import Mathlib

/-! # ALSA::Config (include/ALSA/Config.H)

A shallow embedding of the class `ALSA::Config`: the owned handle `cfg`, the
private `destroy`, the constructor, `load`, the generic `search` and
`keyExists`.

The class is glue over alsa-lib, libc and the C++ streams.  Those calls are
not part of the class: they are taken as parameters (`AlsaLib`), so that every
theorem holds for whatever the library answers.  `ALSA/ALSA.H` (the error
constants, `ALSADebug::evaluateError` and the not-open check) is part of the
repository but is not translated here: its constants and functions are
parameters too (`ALSADebug`).

Every method returns, next to its C++ result, the list of library calls and
diagnostics it made, in order, so that "closes the file once" or "performs no
lookup" can be stated.
-/

namespace ALSA

/-! ## Types of alsa-lib -/

/-- The node types of alsa-lib, the six cases of the switch in `search`. -/
inductive snd_config_type_t
  | SND_CONFIG_TYPE_INTEGER
  | SND_CONFIG_TYPE_INTEGER64
  | SND_CONFIG_TYPE_REAL
  | SND_CONFIG_TYPE_STRING
  | SND_CONFIG_TYPE_POINTER
  | SND_CONFIG_TYPE_COMPOUND
  deriving DecidableEq

/-- One observable step of a method: a library call that allocates, frees,
opens, closes, parses or looks up, or a diagnostic.  The arguments are the
ones passed in the source. -/
inductive Call (snd_config_t FILE snd_input_t : Type)
  | snd_config_delete (cfg : snd_config_t)
  | snd_config_top
  | fopen (file : String) (mode : String)
  | fclose (fp : FILE)
  | snd_input_stdio_attach (fp : FILE) (close : Int)
  | snd_config_load (cfg : Option snd_config_t) (inp : snd_input_t)
  | snd_input_close (inp : snd_input_t)
  | snd_config_search (cfg : snd_config_t) (key : String)
  | evaluateError (errorNum : Int) (append : Option String)
  | SNDERR (msg : String)
  deriving DecidableEq

/-- The calls into alsa-lib, libc and the stream library made by `Config`,
as answered during one method call.  A pointer that may be null is an
`Option`; an out-parameter is returned next to the status.

* `snd_config_top`: the status and the value of `cfg` after the call (`cfg`
  is null before it, `destroy` having run).
* `fopen file mode`: the stream, `none` for a null pointer.
* `errno`: the value read by `return -errno`.
* `snd_input_stdio_attach fp close`: the status and the value of `in`.
* `snd_config_load cfg in`: the status and the tree behind `cfg` afterwards
  (the call fills the tree in place).
* `snd_config_search cfg key`: the status and the value of `conf`.
* the four getters: the status and the value of the local variable.
* `showDouble`: the characters `arg<<vald` appends for a `double`. -/
structure AlsaLib (snd_config_t FILE snd_input_t double : Type) where
  snd_config_top : Int × Option snd_config_t
  fopen : String → String → Option FILE
  errno : Int
  snd_input_stdio_attach : FILE → Int → Int × snd_input_t
  snd_config_load : Option snd_config_t → snd_input_t → Int × Option snd_config_t
  snd_config_search : snd_config_t → String → Int × snd_config_t
  snd_config_get_type : snd_config_t → snd_config_type_t
  snd_config_get_integer : snd_config_t → Int × Int
  snd_config_get_integer64 : snd_config_t → Int × Int
  snd_config_get_real : snd_config_t → Int × double
  snd_config_get_string : snd_config_t → Int × String
  showDouble : double → List Char

/-- What `Config.H` uses of `ALSA/ALSA.H`, which is not among the sources:
the two error constants, the status the not-open check returns
(`NotLoadedError`), and the value returned by `ALSADebug().evaluateError`
with one argument and with an appended message. -/
structure ALSADebug where
  ALSA_CONFIG_NOT_OPEN_ERROR : Int
  ALSA_UNHANDLED_TYPE : Int
  NotLoadedError : Int
  evaluateError : Int → Int
  evaluateErrorAppend : Int → String → Int

/-- Modelled from the spec: the check `CFG_NOT_OPEN_CHECK_NO_PRINT(cfg,int)`
of `ALSA/ALSA.H`, which is not among the sources.  "Fails with
`NotLoadedError` if no tree is currently loaded (checked before any lookup -
this guard is silent, i.e. it does not itself emit a diagnostic)": on a null
handle the enclosing method returns the not-loaded status at once
(`Except.error`), otherwise it goes on with the handle (`Except.ok`). -/
def CFG_NOT_OPEN_CHECK_NO_PRINT {snd_config_t : Type} (dbg : ALSADebug) :
    Option snd_config_t → Except Int snd_config_t
  | none => Except.error dbg.NotLoadedError
  | some cfg => Except.ok cfg

/-! ## The class -/

/-- The data member of `class Config`: `snd_config_t *cfg`. -/
structure Config (snd_config_t : Type) where
  cfg : Option snd_config_t
  deriving DecidableEq

/-- The result of `load`: the returned `int`, the object afterwards, and the
calls made. -/
structure LoadResult (snd_config_t FILE snd_input_t : Type) where
  status : Int
  self : Config snd_config_t
  calls : List (Call snd_config_t FILE snd_input_t)
  deriving DecidableEq

/-- The result of `search` and of `keyExists`: the returned `int`, the output
argument `ret` afterwards (`Unit` for `keyExists`), and the calls made. -/
structure SearchResult (snd_config_t FILE snd_input_t TYPE : Type) where
  status : Int
  ret : TYPE
  calls : List (Call snd_config_t FILE snd_input_t)
  deriving DecidableEq

/-! ## The stream operations used by `search`

`search` writes the value into a `std::stringstream arg` and reads `ret` back
from it.  The stream content is a list of characters. -/

/-- The whitespace of the classic locale, skipped by a formatted read. -/
def isspace (c : Char) : Bool :=
  c = ' ' || c = '\t' || c = '\n' || c = Char.ofNat 11 || c = Char.ofNat 12 || c = '\r'

/-- The decimal digit character of `d < 10`. -/
def digitChar (d : Nat) : Char :=
  Char.ofNat (48 + d)

/-- The decimal digits of `n`, most significant first; `fuel` bounds the
number of digits. -/
def putDigits : Nat → Nat → List Char
  | 0, _ => []
  | fuel + 1, n =>
    if n < 10 then [digitChar n] else putDigits fuel (n / 10) ++ [digitChar (n % 10)]

/-- The characters appended by `arg<<vall` and `arg<<valll` (a `long`, a
`long long`): decimal, with a leading `-` for a negative value. -/
def showInt (v : Int) : List Char :=
  if v < 0 then '-' :: putDigits (v.natAbs + 1) v.natAbs
  else putDigits (v.natAbs + 1) v.natAbs

/-- The value of a run of decimal digits. -/
def digitsValue (ds : List Char) : Nat :=
  ds.foldl (fun acc c => acc * 10 + (c.toNat - 48)) 0

/-- The least `long long`. -/
def LLONG_MIN : Int := -(2 ^ 63)

/-- The greatest `long long`. -/
def LLONG_MAX : Int := 2 ^ 63 - 1

/-- The number read from the characters that follow the whitespace: an
optional sign, then the longest run of digits.  No digit gives 0; a value out
of range gives the nearest bound. -/
def readInt64 (cs : List Char) : Int :=
  let neg := cs.head? = some '-'
  let body := if cs.head? = some '-' ∨ cs.head? = some '+' then cs.tail else cs
  let ds := body.takeWhile Char.isDigit
  let v : Int := if neg then -(digitsValue ds : Int) else (digitsValue ds : Int)
  if ds = [] then 0
  else if v < LLONG_MIN then LLONG_MIN
  else if LLONG_MAX < v then LLONG_MAX
  else v

/-- The formatted read `arg>>ret` for a `long long ret`: skip the leading
whitespace; when nothing is left the read fails before it stores anything and
`ret` keeps its value; otherwise `ret` is the number read. -/
def extractInt64 (arg : List Char) (ret : Int) : Int :=
  let rest := arg.dropWhile isspace
  if rest = [] then ret else readInt64 rest

/-- The formatted read `arg>>ret` for a `std::string ret`: skip the leading
whitespace; when nothing is left the read fails before it stores anything and
`ret` keeps its value; otherwise `ret` is the characters up to the next
whitespace. -/
def extractString (arg : List Char) (ret : String) : String :=
  let rest := arg.dropWhile isspace
  if rest = [] then ret else String.mk (rest.takeWhile (fun c => !isspace c))

section Methods

variable {snd_config_t FILE snd_input_t double : Type}

/-- The constructor `Config()`: `cfg=NULL`. -/
def Config.new : Config snd_config_t :=
  { cfg := none }

/-- The private `destroy()`: if `cfg` is valid, delete it; set it to null. -/
def Config.destroy (self : Config snd_config_t) :
    Config snd_config_t × List (Call snd_config_t FILE snd_input_t) :=
  match self.cfg with
  | some cfg => ({ cfg := none }, [Call.snd_config_delete cfg])
  | none => ({ cfg := none }, [])

/-- The method `int load(std::string file)`. -/
def Config.load (lib : AlsaLib snd_config_t FILE snd_input_t double) (dbg : ALSADebug)
    (self : Config snd_config_t) (file : String) :
    LoadResult snd_config_t FILE snd_input_t :=
  let destroyed : Config snd_config_t × List (Call snd_config_t FILE snd_input_t) :=
    self.destroy
  let ret := lib.snd_config_top.1
  let self1 : Config snd_config_t := { cfg := lib.snd_config_top.2 }
  let calls1 := destroyed.2 ++ [Call.snd_config_top]
  if ret ≠ 0 then
    { status := dbg.evaluateErrorAppend ret " When attempting to open the file.\n"
      self := self1
      calls := calls1 ++
        [Call.evaluateError ret (some " When attempting to open the file.\n")] }
  else
    match lib.fopen file "r" with
    | none =>
      { status := -lib.errno
        self := self1
        calls := calls1 ++
          [Call.fopen file "r",
           Call.evaluateError dbg.ALSA_CONFIG_NOT_OPEN_ERROR
             (some " When attempting to fopen the file.\n")] }
    | some fp =>
      let attached := lib.snd_input_stdio_attach fp 1
      let calls2 := calls1 ++ [Call.fopen file "r", Call.snd_input_stdio_attach fp 1]
      if attached.1 < 0 then
        { status := attached.1
          self := self1
          calls := calls2 ++
            [Call.fclose fp, Call.SNDERR ("could not attach stdio " ++ file)] }
      else
        let loaded := lib.snd_config_load self1.cfg attached.2
        let self2 : Config snd_config_t := { cfg := loaded.2 }
        let calls3 := calls2 ++
          [Call.snd_config_load self1.cfg attached.2, Call.snd_input_close attached.2]
        if loaded.1 ≠ 0 then
          { status := dbg.evaluateErrorAppend dbg.ALSA_CONFIG_NOT_OPEN_ERROR
              " When attempting to open the file.\n"
            self := self2
            calls := calls3 ++
              [Call.evaluateError loaded.1 none,
               Call.evaluateError dbg.ALSA_CONFIG_NOT_OPEN_ERROR
                 (some " When attempting to open the file.\n")] }
        else
          { status := 0, self := self2, calls := calls3 }

/-- The message built in `errMsg` when the lookup fails. -/
def keyNotFoundMsg (key : String) : String :=
  "Couldn't find a configuration matching the key : " ++ key ++ "\n"

/-- The message built in `errMsg` for a pointer or a compound node. -/
def unhandledTypeMsg (key : String) : String :=
  " When attempting to convert the key " ++ key ++
    " which was in the config file as a pointer or compound config. Currently only handling int, int64, real and string types.\n"

/-- The method `template<typename TYPE> int search(std::string key, TYPE &ret)`.
The read `arg>>ret` of the output type is the argument `extract`: from the
content of `arg` and the value of `ret` before, the value of `ret` after. -/
def Config.search {TYPE : Type} (lib : AlsaLib snd_config_t FILE snd_input_t double)
    (dbg : ALSADebug) (extract : List Char → TYPE → TYPE)
    (self : Config snd_config_t) (key : String) (ret : TYPE) :
    SearchResult snd_config_t FILE snd_input_t TYPE :=
  match CFG_NOT_OPEN_CHECK_NO_PRINT dbg self.cfg with
  | Except.error notOpen => { status := notOpen, ret := ret, calls := [] }
  | Except.ok cfg =>
    let err := (lib.snd_config_search cfg key).1
    let conf := (lib.snd_config_search cfg key).2
    if err ≠ 0 then
      { status := dbg.evaluateErrorAppend err (keyNotFoundMsg key)
        ret := ret
        calls := [Call.snd_config_search cfg key,
                  Call.evaluateError err (some (keyNotFoundMsg key))] }
    else
      match lib.snd_config_get_type conf with
      | snd_config_type_t.SND_CONFIG_TYPE_INTEGER =>
        { status := 0
          ret := extract (showInt (lib.snd_config_get_integer conf).2) ret
          calls := [Call.snd_config_search cfg key] }
      | snd_config_type_t.SND_CONFIG_TYPE_INTEGER64 =>
        { status := 0
          ret := extract (showInt (lib.snd_config_get_integer64 conf).2) ret
          calls := [Call.snd_config_search cfg key] }
      | snd_config_type_t.SND_CONFIG_TYPE_REAL =>
        { status := 0
          ret := extract (lib.showDouble (lib.snd_config_get_real conf).2) ret
          calls := [Call.snd_config_search cfg key] }
      | snd_config_type_t.SND_CONFIG_TYPE_STRING =>
        { status := 0
          ret := extract (lib.snd_config_get_string conf).2.data ret
          calls := [Call.snd_config_search cfg key] }
      | snd_config_type_t.SND_CONFIG_TYPE_POINTER =>
        { status := dbg.evaluateErrorAppend dbg.ALSA_UNHANDLED_TYPE (unhandledTypeMsg key)
          ret := ret
          calls := [Call.snd_config_search cfg key,
                    Call.evaluateError dbg.ALSA_UNHANDLED_TYPE (some (unhandledTypeMsg key))] }
      | snd_config_type_t.SND_CONFIG_TYPE_COMPOUND =>
        { status := dbg.evaluateErrorAppend dbg.ALSA_UNHANDLED_TYPE (unhandledTypeMsg key)
          ret := ret
          calls := [Call.snd_config_search cfg key,
                    Call.evaluateError dbg.ALSA_UNHANDLED_TYPE (some (unhandledTypeMsg key))] }

/-- The method `int keyExists(std::string key)`. -/
def Config.keyExists (lib : AlsaLib snd_config_t FILE snd_input_t double)
    (dbg : ALSADebug) (self : Config snd_config_t) (key : String) :
    SearchResult snd_config_t FILE snd_input_t Unit :=
  match CFG_NOT_OPEN_CHECK_NO_PRINT dbg self.cfg with
  | Except.error notOpen => { status := notOpen, ret := (), calls := [] }
  | Except.ok cfg =>
    let err := (lib.snd_config_search cfg key).1
    if err ≠ 0 then
      { status := dbg.evaluateErrorAppend err (keyNotFoundMsg key)
        ret := ()
        calls := [Call.snd_config_search cfg key,
                  Call.evaluateError err (some (keyNotFoundMsg key))] }
    else
      { status := 0, ret := (), calls := [Call.snd_config_search cfg key] }

end Methods

/-! ## A concrete library: the example of the documentation of `search`

The comment above `search` gives the tree `a 42`, `b.c "cee"`, `b.d.e 2.71828`
and its keys.  The library below answers for that file, for a second file and
for a missing one; it is used to evaluate the methods on concrete inputs. -/

/-- The value of a node of the concrete library. -/
inductive DemoValue
  | integer (v : Int)
  | integer64 (v : Int)
  | real (text : String)
  | string (s : String)
  | pointer
  | compound
  deriving DecidableEq

/-- A handle of the concrete library: a tree, given by its keys in dotted form
and their values, or a node found in one. -/
inductive DemoConfig
  | tree (entries : List (String × DemoValue))
  | node (value : DemoValue)
  deriving DecidableEq

/-- The content of a file of the concrete library: the entries it parses to. -/
abbrev DemoFile := List (String × DemoValue)

/-- The file of the comment above `search`. -/
def exampleFile : DemoFile :=
  [("a", DemoValue.integer 42), ("b", DemoValue.compound),
   ("b.c", DemoValue.string "cee"), ("b.d", DemoValue.compound),
   ("b.d.e", DemoValue.real "2.71828")]

/-- A second file: a key `x` that the first lacks, and a string of two
words. -/
def otherFile : DemoFile :=
  [("x", DemoValue.integer 1), ("name", DemoValue.string "hello world")]

/-- The lookup of the concrete library in a handle. -/
def demoSearch (cfg : DemoConfig) (key : String) : Int × DemoConfig :=
  match cfg with
  | DemoConfig.tree entries =>
    match entries.lookup key with
    | some v => (0, DemoConfig.node v)
    | none => (-2, cfg)
  | DemoConfig.node _ => (-2, cfg)

/-- The type of a handle of the concrete library. -/
def demoType : DemoConfig → snd_config_type_t
  | DemoConfig.node (DemoValue.integer _) => snd_config_type_t.SND_CONFIG_TYPE_INTEGER
  | DemoConfig.node (DemoValue.integer64 _) => snd_config_type_t.SND_CONFIG_TYPE_INTEGER64
  | DemoConfig.node (DemoValue.real _) => snd_config_type_t.SND_CONFIG_TYPE_REAL
  | DemoConfig.node (DemoValue.string _) => snd_config_type_t.SND_CONFIG_TYPE_STRING
  | DemoConfig.node DemoValue.pointer => snd_config_type_t.SND_CONFIG_TYPE_POINTER
  | DemoConfig.node DemoValue.compound => snd_config_type_t.SND_CONFIG_TYPE_COMPOUND
  | DemoConfig.tree _ => snd_config_type_t.SND_CONFIG_TYPE_COMPOUND

/-- The concrete library: `snd_config_top` gives the empty tree, `fopen` knows
two files and fails with `ENOENT` (2) on any other, attaching succeeds,
parsing appends the entries of the file to the tree, a lookup fails with
`-ENOENT`, a getter of the wrong type fails with `-EINVAL`. -/
def demoLib : AlsaLib DemoConfig DemoFile DemoFile String where
  snd_config_top := (0, some (DemoConfig.tree []))
  fopen := fun file _ =>
    if file = "example.conf" then some exampleFile
    else if file = "other.conf" then some otherFile
    else none
  errno := 2
  snd_input_stdio_attach := fun fp _ => (0, fp)
  snd_config_load := fun cfg inp =>
    match cfg with
    | some (DemoConfig.tree entries) => (0, some (DemoConfig.tree (entries ++ inp)))
    | other => (-22, other)
  snd_config_search := demoSearch
  snd_config_get_type := demoType
  snd_config_get_integer := fun conf =>
    match conf with
    | DemoConfig.node (DemoValue.integer v) => (0, v)
    | _ => (-22, 0)
  snd_config_get_integer64 := fun conf =>
    match conf with
    | DemoConfig.node (DemoValue.integer64 v) => (0, v)
    | _ => (-22, 0)
  snd_config_get_real := fun conf =>
    match conf with
    | DemoConfig.node (DemoValue.real text) => (0, text)
    | _ => (-22, "")
  snd_config_get_string := fun conf =>
    match conf with
    | DemoConfig.node (DemoValue.string s) => (0, s)
    | _ => (-22, "")
  showDouble := fun text => text.data

/-- Sample values for the parameters of `ALSA/ALSA.H`: three distinct negative
constants, and an `evaluateError` that returns the error number it is
given. -/
def demoDbg : ALSADebug where
  ALSA_CONFIG_NOT_OPEN_ERROR := -40001
  ALSA_UNHANDLED_TYPE := -40002
  NotLoadedError := -40003
  evaluateError := fun errorNum => errorNum
  evaluateErrorAppend := fun errorNum _ => errorNum

/-- The object after `load("example.conf")` on a new object, in the concrete
library. -/
def demoLoaded : Config DemoConfig :=
  (Config.load demoLib demoDbg Config.new "example.conf").self

/-! ## The calls that release the file -/

/-- The calls that close the file opened by `load`: `fclose` on the stream,
or `snd_input_close` on the input it was attached to. -/
def Call.isRelease {snd_config_t FILE snd_input_t : Type} :
    Call snd_config_t FILE snd_input_t → Bool
  | Call.fclose _ => true
  | Call.snd_input_close _ => true
  | _ => false

/-- The calls that only report: `evaluateError` and `SNDERR`. -/
def Call.isDiagnostic {snd_config_t FILE snd_input_t : Type} :
    Call snd_config_t FILE snd_input_t → Bool
  | Call.evaluateError _ _ => true
  | Call.SNDERR _ => true
  | _ => false

/-! ## The decimal round trip of the stream -/

/-- A decimal digit character is a digit, no whitespace, no sign, and has the
value of its digit. -/
theorem digitChar_facts (d : Nat) (h : d < 10) :
    (digitChar d).isDigit = true ∧ isspace (digitChar d) = false ∧
      digitChar d ≠ '-' ∧ digitChar d ≠ '+' ∧ (digitChar d).toNat - 48 = d := by
  interval_cases d <;> decide

/-- Every character written for a number is a digit, no whitespace and no
sign. -/
theorem putDigits_facts (fuel : Nat) : ∀ n : Nat, ∀ c ∈ putDigits fuel n,
    c.isDigit = true ∧ isspace c = false ∧ c ≠ '-' ∧ c ≠ '+' := by
  induction fuel with
  | zero => intro n c hc; simp [putDigits] at hc
  | succ fuel ih =>
    intro n c hc
    unfold putDigits at hc
    split at hc
    · rename_i hn
      simp only [List.mem_singleton] at hc
      subst hc
      have := digitChar_facts n hn
      exact ⟨this.1, this.2.1, this.2.2.1, this.2.2.2.1⟩
    · rcases List.mem_append.mp hc with h | h
      · exact ih _ c h
      · simp only [List.mem_singleton] at h
        subst h
        have := digitChar_facts (n % 10) (Nat.mod_lt _ (by decide))
        exact ⟨this.1, this.2.1, this.2.2.1, this.2.2.2.1⟩

/-- A number is written with at least one digit. -/
theorem putDigits_ne_nil (fuel n : Nat) : putDigits (fuel + 1) n ≠ [] := by
  unfold putDigits
  split
  · simp
  · simp

/-- The value of a run of digits followed by one more digit. -/
theorem digitsValue_append_singleton (ds : List Char) (c : Char) :
    digitsValue (ds ++ [c]) = digitsValue ds * 10 + (c.toNat - 48) := by
  simp [digitsValue, List.foldl_append]

/-- The digits written for `n` have the value `n`, the fuel being enough. -/
theorem digitsValue_putDigits (fuel : Nat) : ∀ n : Nat, n < fuel →
    digitsValue (putDigits fuel n) = n := by
  induction fuel with
  | zero => intro n h; omega
  | succ fuel ih =>
    intro n hn
    unfold putDigits
    split
    · rename_i h10
      have := (digitChar_facts n h10).2.2.2.2
      simp [digitsValue, this]
    · rename_i h10
      rw [digitsValue_append_singleton, ih (n / 10) (by omega),
        (digitChar_facts (n % 10) (Nat.mod_lt _ (by decide))).2.2.2.2]
      omega

/-- The longest run of digits of the text of a number is the whole text. -/
theorem takeWhile_isDigit_putDigits (fuel n : Nat) :
    (putDigits fuel n).takeWhile Char.isDigit = putDigits fuel n := by
  rw [List.takeWhile_eq_self_iff]
  intro c hc
  exact (putDigits_facts fuel n c hc).1

/-- The text of a number starts with a character that is neither whitespace
nor a sign. -/
theorem putDigits_head (fuel n : Nat) :
    ∃ c cs, putDigits (fuel + 1) n = c :: cs ∧ isspace c = false ∧ c ≠ '-' ∧ c ≠ '+' := by
  have hne := putDigits_ne_nil fuel n
  match h : putDigits (fuel + 1) n with
  | [] => exact absurd h hne
  | c :: cs =>
    have := putDigits_facts (fuel + 1) n c (by rw [h]; simp)
    exact ⟨c, cs, rfl, this.2.1, this.2.2.1, this.2.2.2⟩

/-- Reading back as a `long long` what `arg<<v` wrote gives `v`, for every
`v` in the range of `long long`. -/
theorem extractInt64_showInt (v ret : Int) (hlo : LLONG_MIN ≤ v) (hhi : v ≤ LLONG_MAX) :
    extractInt64 (showInt v) ret = v := by
  obtain ⟨c, cs, hcs, hsp, hm, hp⟩ := putDigits_head v.natAbs v.natAbs
  have hval := digitsValue_putDigits (v.natAbs + 1) v.natAbs (by omega)
  have htw := takeWhile_isDigit_putDigits (v.natAbs + 1) v.natAbs
  have hne := putDigits_ne_nil v.natAbs v.natAbs
  unfold LLONG_MIN at hlo
  unfold LLONG_MAX at hhi
  by_cases hv : v < 0
  · have hshow : showInt v = '-' :: putDigits (v.natAbs + 1) v.natAbs := by
      simp [showInt, hv]
    have hdrop : (showInt v).dropWhile isspace = '-' :: putDigits (v.natAbs + 1) v.natAbs := by
      rw [hshow, List.dropWhile_cons_of_neg (by decide)]
    simp only [extractInt64, hdrop, readInt64, List.head?_cons, List.tail_cons, htw, hval,
      true_or, if_true, LLONG_MIN, LLONG_MAX]
    simp only [hne, reduceCtorEq, if_false]
    have : -((v.natAbs : Nat) : Int) = v := by omega
    rw [this]
    split_ifs <;> omega
  · have hshow : showInt v = putDigits (v.natAbs + 1) v.natAbs := by
      simp [showInt, hv]
    have hdrop : (showInt v).dropWhile isspace = putDigits (v.natAbs + 1) v.natAbs := by
      rw [hshow, hcs, List.dropWhile_cons_of_neg (by simp [hsp])]
    have hh : (putDigits (v.natAbs + 1) v.natAbs).head? = some c := by rw [hcs]; rfl
    have h1 : ¬ (some c = some '-') := by simpa using hm
    have h2 : ¬ (some c = some '+') := by simpa using hp
    simp only [extractInt64, hdrop, readInt64, hh, h1, h2, or_self, if_false, htw, hval,
      LLONG_MIN, LLONG_MAX, hne]
    have : ((v.natAbs : Nat) : Int) = v := by omega
    rw [this]
    split_ifs <;> omega

section LoadLemmas

variable {snd_config_t FILE snd_input_t double : Type}

/-- The status of `load` is 0 exactly when the four steps succeed (shared by
the theorems on `load`). -/
theorem load_status_eq_zero_iff
    (lib : AlsaLib snd_config_t FILE snd_input_t double) (dbg : ALSADebug)
    (self : Config snd_config_t) (file : String)
    (hEval : ∀ e msg, e ≠ 0 → dbg.evaluateErrorAppend e msg ≠ 0)
    (hConst : dbg.ALSA_CONFIG_NOT_OPEN_ERROR ≠ 0)
    (hErrno : lib.fopen file "r" = none → lib.errno ≠ 0) :
    (Config.load lib dbg self file).status = 0 ↔
      (lib.snd_config_top.1 = 0 ∧
        ∃ fp, lib.fopen file "r" = some fp ∧
          0 ≤ (lib.snd_input_stdio_attach fp 1).1 ∧
          (lib.snd_config_load lib.snd_config_top.2
            (lib.snd_input_stdio_attach fp 1).2).1 = 0) := by
  unfold Config.load
  by_cases hTop : lib.snd_config_top.1 = 0
  · cases hOpen : lib.fopen file "r" with
    | none =>
      have := hErrno hOpen
      simp [hTop, this]
    | some fp =>
      by_cases hAtt : (lib.snd_input_stdio_attach fp 1).1 < 0
      · have h1 : (lib.snd_input_stdio_attach fp 1).1 ≠ 0 := by omega
        have h2 : ¬ 0 ≤ (lib.snd_input_stdio_attach fp 1).1 := by omega
        simp [hTop, hAtt, h1]
      · have h2 : 0 ≤ (lib.snd_input_stdio_attach fp 1).1 := by omega
        by_cases hLoad : (lib.snd_config_load lib.snd_config_top.2
            (lib.snd_input_stdio_attach fp 1).2).1 = 0
        · simp [hTop, hAtt, h2, hLoad]
        · have := hEval _ " When attempting to open the file.\n" hConst
          simp [hTop, hAtt, h2, hLoad, this]
  · have := hEval _ " When attempting to open the file.\n" hTop
    simp [hTop, this]


/-- The status and the object after `load` do not depend on the object
before: `load` starts with `destroy`. -/
theorem load_status_self_indep
    (lib : AlsaLib snd_config_t FILE snd_input_t double) (dbg : ALSADebug)
    (self other : Config snd_config_t) (file : String) :
    (Config.load lib dbg self file).status = (Config.load lib dbg other file).status ∧
    (Config.load lib dbg self file).self = (Config.load lib dbg other file).self := by
  unfold Config.load
  by_cases hTop : lib.snd_config_top.1 = 0
  · cases hOpen : lib.fopen file "r" with
    | none => simp [hTop]
    | some fp =>
      by_cases hAtt : (lib.snd_input_stdio_attach fp 1).1 < 0
      · simp [hTop, hAtt]
      · by_cases hLoad : (lib.snd_config_load lib.snd_config_top.2
            (lib.snd_input_stdio_attach fp 1).2).1 = 0 <;>
          simp [hTop, hAtt, hLoad]
  · simp [hTop]

/-- The calls of `destroy` close no file. -/
theorem destroy_calls_no_release (self : Config snd_config_t) :
    ∀ c ∈ (self.destroy : Config snd_config_t × List (Call snd_config_t FILE snd_input_t)).2,
      c.isRelease = false := by
  intro c hc
  unfold Config.destroy at hc
  split at hc
  · simp only [List.mem_singleton] at hc
    subst hc
    rfl
  · simp at hc

end LoadLemmas

section Claims

variable {snd_config_t FILE snd_input_t double : Type}

/-- C1, as stated, fails: in the concrete library, `load` of a file that
cannot be opened, on an object holding the example tree, returns `-ENOENT`,
but the object is not left without a tree: it holds the empty tree made by
`snd_config_top`, and `search` and `keyExists` of the key `a` look it up there
and return the status of the lookup, not `NotLoadedError`. -/
theorem load_open_failure_not_unloaded :
    demoLib.fopen "missing.conf" "r" = none ∧
    (Config.load demoLib demoDbg demoLoaded "missing.conf").status = -2 ∧
    (Config.load demoLib demoDbg demoLoaded "missing.conf").self.cfg
      = some (DemoConfig.tree []) ∧
    (Config.search demoLib demoDbg extractInt64
      (Config.load demoLib demoDbg demoLoaded "missing.conf").self "a" 7).calls ≠ [] ∧
    (Config.search demoLib demoDbg extractInt64
      (Config.load demoLib demoDbg demoLoaded "missing.conf").self "a" 7).status
      ≠ demoDbg.NotLoadedError ∧
    (Config.keyExists demoLib demoDbg
      (Config.load demoLib demoDbg demoLoaded "missing.conf").self "a").status
      ≠ demoDbg.NotLoadedError := by
  decide

/-- C1, amended: when `snd_config_top` succeeds with a tree `t` and the file
cannot be opened, `load` returns `-errno` (non-zero when `errno` is), and the
object holds `t`, whatever it held before; a later `search` or `keyExists`
passes the not-loaded check and looks the key up in `t`: when that lookup
fails with `err`, both return `evaluateError(err)` with the key-not-found
message, and `search` leaves `ret` as it was. -/
theorem load_open_failure_holds_new_tree
    (lib lib2 : AlsaLib snd_config_t FILE snd_input_t double) (dbg : ALSADebug)
    (self : Config snd_config_t) (file : String) (t : snd_config_t)
    (hTop : lib.snd_config_top = (0, some t)) (hOpen : lib.fopen file "r" = none) :
    (Config.load lib dbg self file).status = -lib.errno ∧
    (lib.errno ≠ 0 → (Config.load lib dbg self file).status ≠ 0) ∧
    (Config.load lib dbg self file).self = { cfg := some t } ∧
    ∀ (TYPE : Type) (extract : List Char → TYPE → TYPE) (key : String) (ret : TYPE),
      (Config.search lib2 dbg extract (Config.load lib dbg self file).self key ret).calls.head?
        = some (Call.snd_config_search t key) ∧
      (Config.keyExists lib2 dbg (Config.load lib dbg self file).self key).calls.head?
        = some (Call.snd_config_search t key) ∧
      ((lib2.snd_config_search t key).1 ≠ 0 →
        Config.search lib2 dbg extract (Config.load lib dbg self file).self key ret =
          { status := dbg.evaluateErrorAppend (lib2.snd_config_search t key).1
              (keyNotFoundMsg key)
            ret := ret
            calls := [Call.snd_config_search t key,
              Call.evaluateError (lib2.snd_config_search t key).1
                (some (keyNotFoundMsg key))] } ∧
        Config.keyExists lib2 dbg (Config.load lib dbg self file).self key =
          { status := dbg.evaluateErrorAppend (lib2.snd_config_search t key).1
              (keyNotFoundMsg key)
            ret := ()
            calls := [Call.snd_config_search t key,
              Call.evaluateError (lib2.snd_config_search t key).1
                (some (keyNotFoundMsg key))] }) := by
  have hload : Config.load lib dbg self file =
      { status := -lib.errno, self := { cfg := some t },
        calls := (self.destroy : Config snd_config_t × List (Call snd_config_t FILE snd_input_t)).2
          ++ [Call.snd_config_top] ++
          [Call.fopen file "r",
           Call.evaluateError dbg.ALSA_CONFIG_NOT_OPEN_ERROR
             (some " When attempting to fopen the file.\n")] } := by
    simp [Config.load, hTop, hOpen]
  rw [hload]
  refine ⟨rfl, ?_, rfl, ?_⟩
  · intro h
    simpa using h
  · intro TYPE extract key ret
    refine ⟨?_, ?_, ?_⟩
    · simp only [Config.search, CFG_NOT_OPEN_CHECK_NO_PRINT]
      split_ifs
      · rfl
      · split <;> rfl
    · simp only [Config.keyExists, CFG_NOT_OPEN_CHECK_NO_PRINT]
      split_ifs <;> rfl
    · intro herr
      simp [Config.search, Config.keyExists, CFG_NOT_OPEN_CHECK_NO_PRINT, herr]

/-- C1, amended, on the concrete library: the object that held the example
tree holds the empty tree after the failed `load`, and `search` of `a`
returns the status of the failed lookup. -/
theorem load_open_failure_holds_new_tree_witness :
    demoLib.snd_config_top = (0, some (DemoConfig.tree [])) ∧
    demoLib.fopen "missing.conf" "r" = none ∧
    (Config.load demoLib demoDbg demoLoaded "missing.conf").status = -demoLib.errno :=
  ⟨rfl, rfl,
    (load_open_failure_holds_new_tree demoLib demoLib demoDbg demoLoaded "missing.conf"
      (DemoConfig.tree []) rfl rfl).1⟩

/-- C2: on a new object (`cfg` null), for every key and every initial value of
`ret`, `search` and `keyExists` return `NotLoadedError`, make no call (no
lookup), and `search` leaves `ret` as it was. -/
theorem search_keyExists_before_load {TYPE : Type}
    (lib : AlsaLib snd_config_t FILE snd_input_t double) (dbg : ALSADebug)
    (extract : List Char → TYPE → TYPE) (key : String) (ret : TYPE) :
    Config.search lib dbg extract Config.new key ret =
      { status := dbg.NotLoadedError, ret := ret, calls := [] } ∧
    Config.keyExists lib dbg Config.new key =
      { status := dbg.NotLoadedError, ret := (), calls := [] } :=
  ⟨rfl, rfl⟩

/-- C3: for every object, key and initial value of `ret`, when `search`
returns a non-zero status `ret` is as before the call; and when the lookup of
the key in the held tree fails, `search` returns `evaluateError` of the lookup
status with the key-not-found message, `ret` as before. -/
theorem search_failure_leaves_ret {TYPE : Type}
    (lib : AlsaLib snd_config_t FILE snd_input_t double) (dbg : ALSADebug)
    (extract : List Char → TYPE → TYPE) (self : Config snd_config_t)
    (key : String) (ret : TYPE) :
    ((Config.search lib dbg extract self key ret).status ≠ 0 →
      (Config.search lib dbg extract self key ret).ret = ret) ∧
    (∀ cfg, self.cfg = some cfg → (lib.snd_config_search cfg key).1 ≠ 0 →
      Config.search lib dbg extract self key ret =
        { status := dbg.evaluateErrorAppend (lib.snd_config_search cfg key).1
            (keyNotFoundMsg key)
          ret := ret
          calls := [Call.snd_config_search cfg key,
            Call.evaluateError (lib.snd_config_search cfg key).1
              (some (keyNotFoundMsg key))] }) := by
  constructor
  · intro h
    obtain ⟨cfg⟩ := self
    cases cfg with
    | none => rfl
    | some cfg =>
      simp only [Config.search, CFG_NOT_OPEN_CHECK_NO_PRINT] at h ⊢
      split_ifs at h ⊢ with herr
      · rfl
      · split at h <;> first | rfl | exact absurd rfl h
  · intro cfg hcfg herr
    obtain ⟨c⟩ := self
    simp only at hcfg
    subst hcfg
    simp [Config.search, CFG_NOT_OPEN_CHECK_NO_PRINT, herr]

/-- C3 on the concrete library: a key that is not in the example tree gives a
non-zero status and leaves 7 in `ret`. -/
theorem search_failure_leaves_ret_witness :
    (Config.search demoLib demoDbg extractInt64 demoLoaded "nokey" 7).status ≠ 0 ∧
    (Config.search demoLib demoDbg extractInt64 demoLoaded "nokey" 7).ret = 7 :=
  ⟨by decide,
    (search_failure_leaves_ret demoLib demoDbg extractInt64 demoLoaded "nokey" 7).1
      (by decide)⟩

/-- C4: on a loaded object, when the lookup of the key succeeds and the node
is a pointer or a compound, `keyExists` returns 0 while `search` returns
`evaluateError(ALSA_UNHANDLED_TYPE)`, which is non-zero; and `keyExists`
returns non-zero exactly when the lookup fails and `search` returns through
its key-not-found branch, with the same status.  The value returned by
`evaluateError` is a parameter: it is assumed non-zero for a non-zero error
number, and `ALSA_UNHANDLED_TYPE` is assumed non-zero. -/
theorem keyExists_search_asymmetry {TYPE : Type}
    (lib : AlsaLib snd_config_t FILE snd_input_t double) (dbg : ALSADebug)
    (extract : List Char → TYPE → TYPE) (cfg : snd_config_t)
    (key : String) (ret : TYPE)
    (hEval : ∀ e msg, e ≠ 0 → dbg.evaluateErrorAppend e msg ≠ 0)
    (hType : dbg.ALSA_UNHANDLED_TYPE ≠ 0) :
    ((lib.snd_config_search cfg key).1 = 0 →
      (lib.snd_config_get_type (lib.snd_config_search cfg key).2
          = snd_config_type_t.SND_CONFIG_TYPE_POINTER ∨
        lib.snd_config_get_type (lib.snd_config_search cfg key).2
          = snd_config_type_t.SND_CONFIG_TYPE_COMPOUND) →
      (Config.keyExists lib dbg { cfg := some cfg } key).status = 0 ∧
      (Config.search lib dbg extract { cfg := some cfg } key ret).status
        = dbg.evaluateErrorAppend dbg.ALSA_UNHANDLED_TYPE (unhandledTypeMsg key) ∧
      (Config.search lib dbg extract { cfg := some cfg } key ret).status ≠ 0) ∧
    ((Config.keyExists lib dbg { cfg := some cfg } key).status ≠ 0 ↔
      ((lib.snd_config_search cfg key).1 ≠ 0 ∧
        Config.search lib dbg extract { cfg := some cfg } key ret =
          { status := dbg.evaluateErrorAppend (lib.snd_config_search cfg key).1
              (keyNotFoundMsg key)
            ret := ret
            calls := [Call.snd_config_search cfg key,
              Call.evaluateError (lib.snd_config_search cfg key).1
                (some (keyNotFoundMsg key))] })) ∧
    ((Config.keyExists lib dbg { cfg := some cfg } key).status ≠ 0 →
      (Config.search lib dbg extract { cfg := some cfg } key ret).status
        = (Config.keyExists lib dbg { cfg := some cfg } key).status) := by
  refine ⟨?_, ?_, ?_⟩
  · intro hfound htype
    have hu := hEval dbg.ALSA_UNHANDLED_TYPE (unhandledTypeMsg key) hType
    rcases htype with h | h <;>
      simp [Config.search, Config.keyExists, CFG_NOT_OPEN_CHECK_NO_PRINT, hfound, h, hu]
  · by_cases herr : (lib.snd_config_search cfg key).1 = 0
    · simp [Config.keyExists, CFG_NOT_OPEN_CHECK_NO_PRINT, herr]
    · have := hEval _ (keyNotFoundMsg key) herr
      simp [Config.search, Config.keyExists, CFG_NOT_OPEN_CHECK_NO_PRINT, herr, this]
  · by_cases herr : (lib.snd_config_search cfg key).1 = 0
    · simp [Config.keyExists, CFG_NOT_OPEN_CHECK_NO_PRINT, herr]
    · simp [Config.search, Config.keyExists, CFG_NOT_OPEN_CHECK_NO_PRINT, herr]

/-- C4 on the concrete library: the key `b` of the example tree is a compound:
`keyExists` returns 0 and `search` a non-zero status. -/
theorem keyExists_search_asymmetry_witness :
    demoDbg.ALSA_UNHANDLED_TYPE ≠ 0 ∧
    (Config.keyExists demoLib demoDbg { cfg := some (DemoConfig.tree exampleFile) } "b").status
      = 0 ∧
    (Config.search demoLib demoDbg extractInt64
      { cfg := some (DemoConfig.tree exampleFile) } "b" 7).status ≠ 0 :=
  ⟨by decide,
    ((keyExists_search_asymmetry demoLib demoDbg extractInt64 (DemoConfig.tree exampleFile)
      "b" 7 (fun _ _ h => h) (by decide)).1 (by decide) (Or.inr (by decide))).1,
    ((keyExists_search_asymmetry demoLib demoDbg extractInt64 (DemoConfig.tree exampleFile)
      "b" 7 (fun _ _ h => h) (by decide)).1 (by decide) (Or.inr (by decide))).2.2⟩

/-- C5: `load` returns 0 if and only if the four steps succeed:
`snd_config_top` returns 0, `fopen` returns a stream, `snd_input_stdio_attach`
returns a non-negative status, and `snd_config_load` returns 0.  Parameters
assumed: `evaluateError` returns non-zero for a non-zero error number,
`ALSA_CONFIG_NOT_OPEN_ERROR` is non-zero, and `errno` is non-zero when `fopen`
has failed. -/
theorem load_zero_iff
    (lib : AlsaLib snd_config_t FILE snd_input_t double) (dbg : ALSADebug)
    (self : Config snd_config_t) (file : String)
    (hEval : ∀ e msg, e ≠ 0 → dbg.evaluateErrorAppend e msg ≠ 0)
    (hConst : dbg.ALSA_CONFIG_NOT_OPEN_ERROR ≠ 0)
    (hErrno : lib.fopen file "r" = none → lib.errno ≠ 0) :
    (Config.load lib dbg self file).status = 0 ↔
      (lib.snd_config_top.1 = 0 ∧
        ∃ fp, lib.fopen file "r" = some fp ∧
          0 ≤ (lib.snd_input_stdio_attach fp 1).1 ∧
          (lib.snd_config_load lib.snd_config_top.2
            (lib.snd_input_stdio_attach fp 1).2).1 = 0) :=
  load_status_eq_zero_iff lib dbg self file hEval hConst hErrno

/-- C5 on the concrete library: `load("example.conf")` returns 0, the four
steps having succeeded. -/
theorem load_zero_iff_witness :
    demoDbg.ALSA_CONFIG_NOT_OPEN_ERROR ≠ 0 ∧
    demoLib.errno ≠ 0 ∧
    (Config.load demoLib demoDbg Config.new "example.conf").status = 0 :=
  ⟨by decide, by decide,
    (load_zero_iff demoLib demoDbg Config.new "example.conf" (fun _ _ h => h) (by decide)
      (fun _ => by decide)).2 ⟨rfl, exampleFile, rfl, by decide, by decide⟩⟩

/-- C6: on a loaded object, when the lookup of the key succeeds and the node is
an integer or a 64-bit integer whose getter stores `v`, a value of the range of
`long long`, `search` into a `long long` returns 0 and sets `ret` to `v`:
reading back the decimal text written from `v` gives `v`. -/
theorem search_integer_roundtrip
    (lib : AlsaLib snd_config_t FILE snd_input_t double) (dbg : ALSADebug)
    (cfg : snd_config_t) (key : String) (ret v : Int)
    (hFound : (lib.snd_config_search cfg key).1 = 0)
    (hVal :
      (lib.snd_config_get_type (lib.snd_config_search cfg key).2
          = snd_config_type_t.SND_CONFIG_TYPE_INTEGER ∧
        (lib.snd_config_get_integer (lib.snd_config_search cfg key).2).2 = v) ∨
      (lib.snd_config_get_type (lib.snd_config_search cfg key).2
          = snd_config_type_t.SND_CONFIG_TYPE_INTEGER64 ∧
        (lib.snd_config_get_integer64 (lib.snd_config_search cfg key).2).2 = v))
    (hlo : LLONG_MIN ≤ v) (hhi : v ≤ LLONG_MAX) :
    Config.search lib dbg extractInt64 { cfg := some cfg } key ret =
      { status := 0, ret := v, calls := [Call.snd_config_search cfg key] } := by
  have hrt := extractInt64_showInt v ret hlo hhi
  rcases hVal with ⟨ht, hv⟩ | ⟨ht, hv⟩ <;>
    simp [Config.search, CFG_NOT_OPEN_CHECK_NO_PRINT, hFound, ht, hv, hrt]

/-- C6 on the concrete library: the key `a` of the example tree holds 42;
`search` into a `long long` that held 7 returns 0 and stores 42. -/
theorem search_integer_roundtrip_witness :
    Config.search demoLib demoDbg extractInt64 { cfg := some (DemoConfig.tree exampleFile) }
        "a" 7 =
      { status := 0, ret := 42,
        calls := [Call.snd_config_search (DemoConfig.tree exampleFile) "a"] } :=
  search_integer_roundtrip demoLib demoDbg (DemoConfig.tree exampleFile) "a" 7 42
    (by decide) (Or.inl ⟨by decide, by decide⟩) (by decide) (by decide)

/-- C7, the code at the failing input: in the tree of the second file the key
`name` holds the string `hello world`; `search` into a string that held `old`
returns 0 and stores `hello`, the text up to the first blank, not the value of
the node. -/
theorem search_string_stops_at_blank :
    (demoLib.snd_config_search (DemoConfig.tree otherFile) "name").1 = 0 ∧
    demoLib.snd_config_get_type (demoLib.snd_config_search (DemoConfig.tree otherFile) "name").2
      = snd_config_type_t.SND_CONFIG_TYPE_STRING ∧
    (demoLib.snd_config_get_string
      (demoLib.snd_config_search (DemoConfig.tree otherFile) "name").2).2 = "hello world" ∧
    Config.search demoLib demoDbg extractString { cfg := some (DemoConfig.tree otherFile) }
        "name" "old" =
      { status := 0, ret := "hello",
        calls := [Call.snd_config_search (DemoConfig.tree otherFile) "name"] } ∧
    (Config.search demoLib demoDbg extractString { cfg := some (DemoConfig.tree otherFile) }
        "name" "old").ret ≠ "hello world" := by
  decide

/-- C8: on a loaded object, when the lookup of the key succeeds and the node is
an integer, a 64-bit integer, a real or a string, `search` returns 0 for every
output type and every read `extract` of that type, whatever the getters
report and whatever the read makes of the text. -/
theorem search_scalar_returns_zero {TYPE : Type}
    (lib : AlsaLib snd_config_t FILE snd_input_t double) (dbg : ALSADebug)
    (extract : List Char → TYPE → TYPE) (cfg : snd_config_t)
    (key : String) (ret : TYPE)
    (hFound : (lib.snd_config_search cfg key).1 = 0)
    (hType :
      lib.snd_config_get_type (lib.snd_config_search cfg key).2
        = snd_config_type_t.SND_CONFIG_TYPE_INTEGER ∨
      lib.snd_config_get_type (lib.snd_config_search cfg key).2
        = snd_config_type_t.SND_CONFIG_TYPE_INTEGER64 ∨
      lib.snd_config_get_type (lib.snd_config_search cfg key).2
        = snd_config_type_t.SND_CONFIG_TYPE_REAL ∨
      lib.snd_config_get_type (lib.snd_config_search cfg key).2
        = snd_config_type_t.SND_CONFIG_TYPE_STRING) :
    (Config.search lib dbg extract { cfg := some cfg } key ret).status = 0 := by
  rcases hType with h | h | h | h <;>
    simp [Config.search, CFG_NOT_OPEN_CHECK_NO_PRINT, hFound, h]

/-- C8 on the concrete library: the key `b.c` holds the string `cee`; `search`
into a `long long` returns 0 although the text is not a number. -/
theorem search_scalar_returns_zero_witness :
    (demoLib.snd_config_get_string
      (demoLib.snd_config_search (DemoConfig.tree exampleFile) "b.c").2).2 = "cee" ∧
    (Config.search demoLib demoDbg extractInt64 { cfg := some (DemoConfig.tree exampleFile) }
      "b.c" 7).status = 0 :=
  ⟨by decide,
    search_scalar_returns_zero demoLib demoDbg extractInt64 (DemoConfig.tree exampleFile)
      "b.c" 7 (by decide) (Or.inr (Or.inr (Or.inr (by decide))))⟩

/-- C9: after `load(f1)` followed by a `load(f2)` that returns 0, the status
and the held tree are those of `load(f2)` on a new object; the tree is what
`snd_config_load` made of the tree of `snd_config_top` and the input attached
to the stream of `f2`; every later `search` and `keyExists` gives the same
result as on a new object that loaded only `f2`; so a key whose lookup fails in
that tree is reported through the key-not-found branch, whatever `f1` held. -/
theorem second_load_replaces_tree
    (lib1 lib2 lib3 : AlsaLib snd_config_t FILE snd_input_t double) (dbg : ALSADebug)
    (self : Config snd_config_t) (f1 f2 : String)
    (hEval : ∀ e msg, e ≠ 0 → dbg.evaluateErrorAppend e msg ≠ 0)
    (hConst : dbg.ALSA_CONFIG_NOT_OPEN_ERROR ≠ 0)
    (hErrno : lib2.fopen f2 "r" = none → lib2.errno ≠ 0)
    (hOk : (Config.load lib2 dbg (Config.load lib1 dbg self f1).self f2).status = 0) :
    (Config.load lib2 dbg Config.new f2).status = 0 ∧
    (Config.load lib2 dbg (Config.load lib1 dbg self f1).self f2).self
      = (Config.load lib2 dbg Config.new f2).self ∧
    (∃ fp, lib2.fopen f2 "r" = some fp ∧
      (Config.load lib2 dbg (Config.load lib1 dbg self f1).self f2).self.cfg
        = (lib2.snd_config_load lib2.snd_config_top.2
            (lib2.snd_input_stdio_attach fp 1).2).2) ∧
    (∀ (TYPE : Type) (extract : List Char → TYPE → TYPE) (key : String) (ret : TYPE),
      Config.search lib3 dbg extract
          (Config.load lib2 dbg (Config.load lib1 dbg self f1).self f2).self key ret
        = Config.search lib3 dbg extract (Config.load lib2 dbg Config.new f2).self key ret) ∧
    (∀ key : String,
      Config.keyExists lib3 dbg
          (Config.load lib2 dbg (Config.load lib1 dbg self f1).self f2).self key
        = Config.keyExists lib3 dbg (Config.load lib2 dbg Config.new f2).self key) ∧
    (∀ (TYPE : Type) (extract : List Char → TYPE → TYPE) (key : String) (ret : TYPE)
        (cfg : snd_config_t),
      (Config.load lib2 dbg Config.new f2).self.cfg = some cfg →
      (lib3.snd_config_search cfg key).1 ≠ 0 →
      Config.search lib3 dbg extract
          (Config.load lib2 dbg (Config.load lib1 dbg self f1).self f2).self key ret =
        { status := dbg.evaluateErrorAppend (lib3.snd_config_search cfg key).1
            (keyNotFoundMsg key)
          ret := ret
          calls := [Call.snd_config_search cfg key,
            Call.evaluateError (lib3.snd_config_search cfg key).1
              (some (keyNotFoundMsg key))] }) := by
  have hind := load_status_self_indep lib2 dbg (Config.load lib1 dbg self f1).self
    Config.new f2
  have hsteps := (load_status_eq_zero_iff lib2 dbg (Config.load lib1 dbg self f1).self f2
    hEval hConst hErrno).1 hOk
  obtain ⟨hTop, fp, hOpen, hAtt, hLoad⟩ := hsteps
  refine ⟨hind.1 ▸ hOk, hind.2, ⟨fp, hOpen, ?_⟩, ?_, ?_, ?_⟩
  · have h2 : ¬ (lib2.snd_input_stdio_attach fp 1).1 < 0 := by omega
    simp [Config.load, hTop, hOpen, h2, hLoad]
  · intro TYPE extract key ret
    rw [hind.2]
  · intro key
    rw [hind.2]
  · intro TYPE extract key ret cfg hcfg herr
    rw [hind.2]
    generalize (Config.load lib2 dbg Config.new f2).self = s at hcfg
    obtain ⟨c⟩ := s
    simp only at hcfg
    subst hcfg
    simp [Config.search, CFG_NOT_OPEN_CHECK_NO_PRINT, herr]

/-- C9 on the concrete library: after `load("other.conf")` then
`load("example.conf")` the object is the one a new object gets from
`load("example.conf")`, and the key `x` of the first file is not found. -/
theorem second_load_replaces_tree_witness :
    (Config.load demoLib demoDbg
      (Config.load demoLib demoDbg Config.new "other.conf").self "example.conf").status = 0 ∧
    (Config.load demoLib demoDbg
      (Config.load demoLib demoDbg Config.new "other.conf").self "example.conf").self
      = (Config.load demoLib demoDbg Config.new "example.conf").self ∧
    (Config.keyExists demoLib demoDbg
      (Config.load demoLib demoDbg Config.new "other.conf").self "x").status = 0 ∧
    (Config.keyExists demoLib demoDbg
      (Config.load demoLib demoDbg
        (Config.load demoLib demoDbg Config.new "other.conf").self "example.conf").self
      "x").status = -2 :=
  ⟨by decide,
    (second_load_replaces_tree demoLib demoLib demoLib demoDbg Config.new "other.conf"
      "example.conf" (fun _ _ h => h) (by decide) (fun _ => by decide) (by decide)).2.1,
    by decide, by decide⟩

/-- C10: on every path of `load` on which `fopen` returned a stream, exactly
one call closes it, and nothing but diagnostics follows that call: `fclose` on
the stream when attaching fails, otherwise `snd_input_close` on the input the
stream was attached to with close flag 1, right after `snd_config_load`,
whether parsing succeeded or failed. -/
theorem load_releases_file_once
    (lib : AlsaLib snd_config_t FILE snd_input_t double) (dbg : ALSADebug)
    (self : Config snd_config_t) (file : String) (fp : FILE)
    (hTop : lib.snd_config_top.1 = 0) (hOpen : lib.fopen file "r" = some fp) :
    (Config.load lib dbg self file).calls.filter Call.isRelease =
      [if (lib.snd_input_stdio_attach fp 1).1 < 0 then Call.fclose fp
        else Call.snd_input_close (lib.snd_input_stdio_attach fp 1).2] ∧
    (∃ before after,
      (Config.load lib dbg self file).calls =
        before ++
          (if (lib.snd_input_stdio_attach fp 1).1 < 0 then Call.fclose fp
            else Call.snd_input_close (lib.snd_input_stdio_attach fp 1).2) :: after ∧
      (∀ c ∈ after, c.isDiagnostic = true) ∧
      ((lib.snd_input_stdio_attach fp 1).1 < 0 →
        before.getLast? = some (Call.snd_input_stdio_attach fp 1)) ∧
      (¬ (lib.snd_input_stdio_attach fp 1).1 < 0 →
        before.getLast? = some (Call.snd_config_load lib.snd_config_top.2
          (lib.snd_input_stdio_attach fp 1).2))) := by
  have hd := @destroy_calls_no_release snd_config_t FILE snd_input_t self
  have hfilter : (self.destroy : Config snd_config_t ×
      List (Call snd_config_t FILE snd_input_t)).2.filter Call.isRelease = [] := by
    rw [List.filter_eq_nil_iff]
    intro c hc
    simp [hd c hc]
  by_cases hAtt : (lib.snd_input_stdio_attach fp 1).1 < 0
  · constructor
    · simp [Config.load, hTop, hOpen, hAtt, List.filter_append, hfilter, List.filter,
        Call.isRelease]
    · refine ⟨(self.destroy : Config snd_config_t ×
          List (Call snd_config_t FILE snd_input_t)).2 ++
          [Call.snd_config_top, Call.fopen file "r", Call.snd_input_stdio_attach fp 1],
        [Call.SNDERR ("could not attach stdio " ++ file)], ?_, ?_, ?_, ?_⟩
      · simp [Config.load, hTop, hOpen, hAtt]
      · intro c hc
        simp only [List.mem_singleton] at hc
        subst hc
        rfl
      · intro _
        simp
      · intro h
        exact absurd hAtt h
  · constructor
    · by_cases hLoad : (lib.snd_config_load lib.snd_config_top.2
          (lib.snd_input_stdio_attach fp 1).2).1 = 0 <;>
        simp [Config.load, hTop, hOpen, hAtt, hLoad, List.filter_append, hfilter, List.filter,
          Call.isRelease]
    · by_cases hLoad : (lib.snd_config_load lib.snd_config_top.2
          (lib.snd_input_stdio_attach fp 1).2).1 = 0
      · refine ⟨(self.destroy : Config snd_config_t ×
            List (Call snd_config_t FILE snd_input_t)).2 ++
            [Call.snd_config_top, Call.fopen file "r", Call.snd_input_stdio_attach fp 1,
             Call.snd_config_load lib.snd_config_top.2 (lib.snd_input_stdio_attach fp 1).2],
          [], ?_, ?_, ?_, ?_⟩
        · simp [Config.load, hTop, hOpen, hAtt, hLoad]
        · intro c hc
          simp at hc
        · intro h
          exact absurd h hAtt
        · intro _
          simp
      · refine ⟨(self.destroy : Config snd_config_t ×
            List (Call snd_config_t FILE snd_input_t)).2 ++
            [Call.snd_config_top, Call.fopen file "r", Call.snd_input_stdio_attach fp 1,
             Call.snd_config_load lib.snd_config_top.2 (lib.snd_input_stdio_attach fp 1).2],
          [Call.evaluateError (lib.snd_config_load lib.snd_config_top.2
              (lib.snd_input_stdio_attach fp 1).2).1 none,
           Call.evaluateError dbg.ALSA_CONFIG_NOT_OPEN_ERROR
             (some " When attempting to open the file.\n")], ?_, ?_, ?_, ?_⟩
        · simp [Config.load, hTop, hOpen, hAtt, hLoad]
        · intro c hc
          simp only [List.mem_cons, List.mem_singleton, List.not_mem_nil, or_false] at hc
          rcases hc with rfl | rfl <;> rfl
        · intro h
          exact absurd h hAtt
        · intro _
          simp

/-- C10 on the concrete library: `load("example.conf")` on the loaded object
closes the input once. -/
theorem load_releases_file_once_witness :
    demoLib.snd_config_top.1 = 0 ∧
    demoLib.fopen "example.conf" "r" = some exampleFile ∧
    (Config.load demoLib demoDbg demoLoaded "example.conf").calls.filter Call.isRelease =
      [Call.snd_input_close exampleFile] :=
  ⟨rfl, rfl,
    (load_releases_file_once demoLib demoDbg demoLoaded "example.conf" exampleFile rfl rfl).1⟩

end Claims

end ALSA
